import Mathlib

/-!
Verification of the BEPIT Nexus conversation resolver (Express backend).

This file gives a shallow embedding of the string-matching and
conversation-state logic of the service: the intent classifier
(`detectarIntencao`), the ordinal/selection extractor
(`extrairIndiceEscolhido`), the fuzzy partner matcher
(`tentarAcharParceiroPorNomeOuCategoria`), the in-memory conversation
fallback store (`carregarConversaMem`/`salvarConversaMem`), the tag-merge
de-duplication loop, the input-validation prefixes of the chat and feedback
routes, and the response-composition branches of the chat route.

JavaScript strings are modeled as `List Char`; `String` values are unpacked
through `.data` at the boundary.  JS `normalize("NFD")` followed by removal
of the combining marks U+0300-U+036F is modeled char-wise on the precomposed
Latin-1 characters that occur in the sources (this agrees with the JS
pipeline on every string over that alphabet).  Floating-point Dice
similarity is modeled over `ℚ`; for the bigram counts reachable here the
comparison against the literal 0.45 agrees with the double computation.
-/

namespace Bepit

abbrev Str := List Char

/-- Char-wise model of NFD-decomposition + stripping of U+0300-U+036F:
each precomposed Latin letter used by the sources loses its accent. -/
def stripAccent (c : Char) : Char :=
  match c with
  | 'á' => 'a' | 'à' => 'a' | 'â' => 'a' | 'ã' => 'a' | 'ä' => 'a'
  | 'é' => 'e' | 'è' => 'e' | 'ê' => 'e' | 'ë' => 'e'
  | 'í' => 'i' | 'ì' => 'i' | 'î' => 'i' | 'ï' => 'i'
  | 'ó' => 'o' | 'ò' => 'o' | 'ô' => 'o' | 'õ' => 'o' | 'ö' => 'o'
  | 'ú' => 'u' | 'ù' => 'u' | 'û' => 'u' | 'ü' => 'u'
  | 'ç' => 'c'
  | 'Á' => 'A' | 'À' => 'A' | 'Â' => 'A' | 'Ã' => 'A' | 'Ä' => 'A'
  | 'É' => 'E' | 'È' => 'E' | 'Ê' => 'E' | 'Ë' => 'E'
  | 'Í' => 'I' | 'Ì' => 'I' | 'Î' => 'I' | 'Ï' => 'I'
  | 'Ó' => 'O' | 'Ò' => 'O' | 'Ô' => 'O' | 'Õ' => 'O' | 'Ö' => 'O'
  | 'Ú' => 'U' | 'Ù' => 'U' | 'Û' => 'U' | 'Ü' => 'U'
  | 'Ç' => 'C'
  | _ => c

/-- Model of JS `toLowerCase()` on the alphabet used by the sources:
ASCII letters plus the precomposed Latin-1 uppercase letters. -/
def jsLowerChar (c : Char) : Char :=
  match c with
  | 'Á' => 'á' | 'À' => 'à' | 'Â' => 'â' | 'Ã' => 'ã' | 'Ä' => 'ä'
  | 'É' => 'é' | 'È' => 'è' | 'Ê' => 'ê' | 'Ë' => 'ë'
  | 'Í' => 'í' | 'Ì' => 'ì' | 'Î' => 'î' | 'Ï' => 'ï'
  | 'Ó' => 'ó' | 'Ò' => 'ò' | 'Ô' => 'ô' | 'Õ' => 'õ' | 'Ö' => 'ö'
  | 'Ú' => 'ú' | 'Ù' => 'ù' | 'Û' => 'û' | 'Ü' => 'ü'
  | 'Ç' => 'ç'
  | _ => if 'A' ≤ c ∧ c ≤ 'Z' then Char.ofNat (c.toNat + 32) else c

/-- JS `trim()`: drop whitespace from both ends. -/
def trimBoth (l : Str) : Str :=
  ((l.dropWhile Char.isWhitespace).reverse.dropWhile Char.isWhitespace).reverse

/-- `normalizar` from server/index.js: NFD + strip combining marks +
`toLowerCase` + `trim`, modeled char-wise. -/
def normalizar (s : String) : Str :=
  trimBoth (s.data.map (fun c => jsLowerChar (stripAccent c)))

/-- Model of JS `a.isPrefixOf`-style check used below. -/
def isPre : Str → Str → Bool
  | [], _ => true
  | _ :: _, [] => false
  | a :: as, b :: bs => a == b && isPre as bs

/-- JS `hay.includes(needle)`: substring containment. -/
def containsSub (needle : Str) : Str → Bool
  | [] => needle.isEmpty
  | c :: t => isPre needle (c :: t) || containsSub needle t

-- ============================================================================
-- Intent classifier (server/index.js, detectarIntencao)
-- ============================================================================

def padroesRoteiro : List String :=
  ["roteiro", "itinerario", "itinerário", "planeja", "planejar", "planejamento",
   "o que fazer", "x dias", "1 dia", "2 dias", "3 dias", "4 dias", "5 dias",
   "fim de semana", "final de semana", "agenda do dia"]

def mapaDetalhes : List (String × List String) :=
  [("horario", ["horario", "horário", "abre", "fecha", "funciona", "funcionamento", "que horas"]),
   ("endereco", ["endereco", "endereço", "onde fica", "localizacao", "localização", "como chegar"]),
   ("contato", ["contato", "telefone", "whatsapp", "whats", "ligar"]),
   ("fotos", ["foto", "fotos", "imagem", "imagens", "galeria"]),
   ("preco", ["preco", "preço", "faixa de preco", "faixa de preço", "caro", "barato", "valor", "quanto custa"])]

def dicasGatilhos : List String :=
  ["transito", "trânsito", "engarrafamento", "rota alternativa", "desvio",
   "padaria", "cafe da manha", "café da manhã", "cafe", "café",
   "horario bom", "melhor horario", "melhor horário", "estacionamento",
   "seguranca", "segurança", "evitar", "lotado", "lotação"]

/-- `detectarIntencao` from server/index.js: roteiro patterns first, then the
detail-intent table in order, then the dica triggers, else "nenhuma". -/
def detectarIntencao (texto : String) : String :=
  let t := normalizar texto
  if padroesRoteiro.any (fun p => containsSub p.data t) then "roteiro"
  else
    match mapaDetalhes.find? (fun item => item.2.any (fun p => containsSub p.data t)) with
    | some item => item.1
    | none =>
      if dicasGatilhos.any (fun p => containsSub p.data t) then "dica" else "nenhuma"

/-- The closed label set of the classifier. -/
def intencaoLabels : List String :=
  ["roteiro", "horario", "endereco", "contato", "fotos", "preco", "dica", "nenhuma"]

/-- Specification-side classifier (from the spec's words): one priority list,
first matching category wins, default `nenhuma`. -/
def specDetectarIntencao (texto : String) : String :=
  let prioridades := ("roteiro", padroesRoteiro) :: mapaDetalhes ++ [("dica", dicasGatilhos)]
  match prioridades.find? (fun item => item.2.any (fun p => containsSub p.data (normalizar texto))) with
  | some item => item.1
  | none => "nenhuma"


-- ============================================================================
-- Data model
-- ============================================================================

/-- A row of the `parceiros` table (partner or tip item), with the nullable
columns modeled as `Option`. -/
structure Parceiro where
  id : String
  tipo : Option String
  nome : String
  categoria : Option String
  descricao : Option String
  beneficio_bepit : Option String
  endereco : Option String
  contato : Option String
  tags : Option (List String)
  horario_funcionamento : Option String
  faixa_preco : Option String
  fotos_parceiros : Option (List String)
  cidade_id : String
deriving DecidableEq

structure Cidade where
  id : String
  nome : String
  slug : String
deriving DecidableEq

/-- The per-conversation state: focused partner and last suggestion list. -/
structure Conversa where
  parceiro_em_foco : Option Parceiro
  parceiros_sugeridos : List Parceiro
deriving DecidableEq

/-- JS truthiness of a nullable string (`null`, `undefined` and `""` are falsy). -/
def jsTruthyOpt (v : Option String) : Bool :=
  match v with
  | some s => s ≠ ""
  | none => false

/-- JS template interpolation of a nullable string (`null` prints as "null"). -/
def jsShowOpt (v : Option String) : String :=
  v.getD "null"

/-- `resumoDoParceiro` from the sources (non-null argument path). -/
def resumoDoParceiro (parceiro : Parceiro) : String :=
  let nom := if parceiro.nome ≠ "" then parceiro.nome else "—"
  let cat := match parceiro.categoria with
    | some c => if c ≠ "" then c else "categoria não informada"
    | none => "categoria não informada"
  let benef := if jsTruthyOpt parceiro.beneficio_bepit
    then " — Benefício BEPIT: " ++ jsShowOpt parceiro.beneficio_bepit else ""
  let preco := if jsTruthyOpt parceiro.faixa_preco
    then " — Faixa de preço: " ++ jsShowOpt parceiro.faixa_preco else ""
  "Sobre **" ++ nom ++ "** (" ++ cat ++ ")" ++ benef ++ preco ++
    ". Quer **endereço**, **horário**, **contato/WhatsApp**, **faixa de preço** ou **fotos**?"

-- ============================================================================
-- Ordinal/selection extractor (regex m1/m2 + mapaOrdinal)
-- ============================================================================

/-- `mapaOrdinal` (insertion order of the JS `Map`). -/
def mapaOrdinal : List (String × Nat) :=
  [("1", 0), ("um", 0), ("uma", 0), ("primeiro", 0), ("1º", 0), ("1o", 0), ("opcao 1", 0), ("opção 1", 0),
   ("2", 1), ("dois", 1), ("duas", 1), ("segundo", 1), ("2º", 1), ("2o", 1), ("opcao 2", 1), ("opção 2", 1),
   ("3", 2), ("tres", 2), ("três", 2), ("terceiro", 2), ("3º", 2), ("3o", 2), ("opcao 3", 2), ("opção 3", 2),
   ("4", 3), ("quatro", 3), ("quarto", 3), ("4º", 3), ("4o", 3),
   ("5", 4), ("cinco", 4), ("quinto", 4), ("5º", 4), ("5o", 4)]

/-- Match a fixed-length pattern given as a list of character classes;
returns the rest of the input on success. -/
def matchClasses : List (List Char) → Str → Option Str
  | [], rest => some rest
  | _ :: _, [] => none
  | cls :: more, c :: t => if cls.contains c then matchClasses more t else none

/-- Try the regex alternatives in order at the current position.
All overlapping alternatives consume the same number of characters, so
returning the first successful one is faithful to the JS regex engine. -/
def firstAltMatch (alts : List (List (List Char))) (l : Str) : Option Str :=
  match alts with
  | [] => none
  | a :: more =>
    match matchClasses a l with
    | some rest => some rest
    | none => firstAltMatch more l

/-- Alternatives of the m1 regex in server/index.js:
`op[cç][aã]o|opcao|opção|numero|n[uú]mero|n[ºo]|#`. -/
def m1AltsIndex : List (List (List Char)) :=
  [[['o'], ['p'], ['c', 'ç'], ['a', 'ã'], ['o']],
   [['o'], ['p'], ['c'], ['a'], ['o']],
   [['o'], ['p'], ['ç'], ['ã'], ['o']],
   [['n'], ['u'], ['m'], ['e'], ['r'], ['o']],
   [['n'], ['u', 'ú'], ['m'], ['e'], ['r'], ['o']],
   [['n'], ['º', 'o']],
   [['#']]]

/-- Alternatives of the m1 regex in the part_003 revision:
`op[cç][aã]o|opcao|opção|n[uú]mero|numero|n[ºo]|#`. -/
def m1AltsP3 : List (List (List Char)) :=
  [[['o'], ['p'], ['c', 'ç'], ['a', 'ã'], ['o']],
   [['o'], ['p'], ['c'], ['a'], ['o']],
   [['o'], ['p'], ['ç'], ['ã'], ['o']],
   [['n'], ['u', 'ú'], ['m'], ['e'], ['r'], ['o']],
   [['n'], ['u'], ['m'], ['e'], ['r'], ['o']],
   [['n'], ['º', 'o']],
   [['#']]]

def digitVal (c : Char) : Nat := c.toNat - 48

/-- Greedy `\d{1,2}`: parse one or two leading digits. -/
def parseDigits12 : Str → Option Nat
  | [] => none
  | d1 :: rest =>
    if d1.isDigit then
      match rest with
      | d2 :: _ => if d2.isDigit then some (10 * digitVal d1 + digitVal d2) else some (digitVal d1)
      | [] => some (digitVal d1)
    else none

/-- Try the whole m1 pattern (marker, `\s*`, `\d{1,2}`) at one position. -/
def m1TryAt (alts : List (List (List Char))) (l : Str) : Option Nat :=
  match firstAltMatch alts l with
  | some rest => parseDigits12 (rest.dropWhile Char.isWhitespace)
  | none => none

/-- Leftmost m1 match: scan positions left to right. -/
def m1Scan (alts : List (List (List Char))) : Str → Option Nat
  | [] => none
  | c :: t =>
    match m1TryAt alts (c :: t) with
    | some v => some v
    | none => m1Scan alts t

/-- The m2 regex `(^|\s)(\d{1,2})(\s|$)`: a standalone 1-2 digit token.
`boundary` records whether the previous character was a word boundary
(start of string or whitespace). -/
def m2Scan (boundary : Bool) : Str → Option Nat
  | [] => none
  | c :: t =>
    match
      (if boundary ∧ c.isDigit then
        match t with
        | [] => some (digitVal c)
        | d2 :: t2 =>
          if d2.isDigit then
            match t2 with
            | [] => some (10 * digitVal c + digitVal d2)
            | c3 :: _ => if c3.isWhitespace then some (10 * digitVal c + digitVal d2) else none
          else if d2.isWhitespace then some (digitVal c) else none
      else none) with
    | some v => some v
    | none => m2Scan c.isWhitespace t

/-- Shared tail of `extrairIndiceEscolhido`: the m2 regex, then the
`mapaOrdinal` loop. -/
def extrairIndiceTail (t : Str) : Option Int :=
  match m2Scan true t with
  | some v =>
    if (v : Int) - 1 ≥ 0 then some ((v : Int) - 1)
    else (mapaOrdinal.find? (fun kv => containsSub kv.1.data t)).map (fun kv => (kv.2 : Int))
  | none => (mapaOrdinal.find? (fun kv => containsSub kv.1.data t)).map (fun kv => (kv.2 : Int))

/-- `extrairIndiceEscolhido` from server/index.js (input normalized with
`normalizar`, so diacritics are stripped first). -/
def extrairIndiceEscolhido (texto : String) : Option Int :=
  let t := normalizar texto
  match m1Scan m1AltsIndex t with
  | some v => if (v : Int) - 1 ≥ 0 then some ((v : Int) - 1) else extrairIndiceTail t
  | none => extrairIndiceTail t

/-- JS `toLowerCase()` on a string (no trim, no accent stripping). -/
def jsLowerStr (s : String) : Str := s.data.map jsLowerChar

/-- `extrairIndiceEscolhido` from the part_003 revision: input only
lowercased and trimmed (accents are kept). -/
def extrairIndiceEscolhidoP3 (texto : String) : Option Int :=
  let t := trimBoth (jsLowerStr texto)
  match m1Scan m1AltsP3 t with
  | some v => if (v : Int) - 1 ≥ 0 then some ((v : Int) - 1) else extrairIndiceTail t
  | none => extrairIndiceTail t

-- ============================================================================
-- Follow-up intent detector of the part_003 revision
-- ============================================================================

def mapaFollowUp : List (String × List String) :=
  [("horario", ["horário", "horario", "hora", "abre", "fecha", "funciona", "funcionamento", "que horas"]),
   ("endereco", ["onde fica", "endereço", "endereco", "localização", "localizacao", "como chegar", "fica onde"]),
   ("contato", ["contato", "telefone", "whatsapp", "whats", "ligar"]),
   ("fotos", ["foto", "fotos", "imagem", "imagens", "galeria"]),
   ("preco", ["preço", "preco", "faixa de preço", "faixa de preco", "caro", "barato", "valor", "quanto custa"])]

/-- `detectarIntencaoDeFollowUp` from part_003: lowercases (no trim, no
accent stripping) and returns the first matching detail intent. -/
def detectarIntencaoDeFollowUp (textoDoUsuario : String) : String :=
  let t := jsLowerStr textoDoUsuario
  match mapaFollowUp.find? (fun item => item.2.any (fun p => containsSub p.data t)) with
  | some item => item.1
  | none => "nenhuma"

-- ============================================================================
-- Fuzzy partner matcher (part_003: bigrams / diceSimilarity / tentarAchar...)
-- ============================================================================

/-- `bigrams`: character 2-grams of the normalized string. -/
def bigramsL : Str → List (Char × Char)
  | a :: b :: t => (a, b) :: bigramsL (b :: t)
  | _ => []

def bigrams (s : String) : List (Char × Char) := bigramsL (normalizar s)

/-- The multiset-intersection count computed by the frequency-map loop in
`diceSimilarity`. -/
def interCount (A B : List (Char × Char)) : Nat :=
  (B.foldl (fun acc g => if g ∈ acc.2 then (acc.1 + 1, acc.2.erase g) else acc) ((0 : Nat), A)).1

/-- `diceSimilarity` over ℚ (the double comparison with the literal 0.45
agrees with the exact rational one for the bigram counts reachable here). -/
def diceSimilarity (a b : String) : ℚ :=
  let A := bigrams a
  let B := bigrams b
  if A.length = 0 ∨ B.length = 0 then 0
  else (2 * interCount A B : ℚ) / (A.length + B.length)

def sinonimosCategoria : List String :=
  ["churrascaria", "pizzaria", "praia", "restaurante", "bar", "balada", "trilha", "mergulho"]

/-- Stage-1 condition of `tentarAcharParceiroPorNomeOuCategoria`:
substring containment either direction between text and name. -/
def stage1Cond (t : Str) (p : Parceiro) : Bool :=
  let nome := normalizar p.nome
  containsSub nome t || containsSub t nome

/-- Stage-2 condition: category containment either direction, or a known
category synonym present in the text that overlaps the category. -/
def stage2Cond (t : Str) (p : Parceiro) : Bool :=
  let cat := normalizar (p.categoria.getD "")
  !cat.isEmpty &&
    (containsSub cat t || containsSub t cat ||
      sinonimosCategoria.any (fun s =>
        containsSub s.data t && (containsSub s.data cat || containsSub cat s.data)))

/-- Similarity score of stage 3: max of the Dice similarities of the text
against the normalized name and category. -/
def scoreOf (texto : String) (p : Parceiro) : ℚ :=
  max (diceSimilarity texto p.nome) (diceSimilarity texto (p.categoria.getD ""))

/-- The stage-3 fold: keep the strictly best-scoring candidate. -/
def melhorFold (texto : String) (lista : List Parceiro) : Option Parceiro × ℚ :=
  lista.foldl
    (fun acc p => let score := scoreOf texto p; if score > acc.2 then (some p, score) else acc)
    (none, 0)

/-- `tentarAcharParceiroPorNomeOuCategoria` from part_003. -/
def tentarAcharParceiroPorNomeOuCategoria (texto : String) (lista : List Parceiro) : Option Parceiro :=
  let t := normalizar texto
  if t.isEmpty then none
  else
    match lista.find? (stage1Cond t) with
    | some p => some p
    | none =>
      match lista.find? (stage2Cond t) with
      | some p => some p
      | none =>
        let r := melhorFold texto lista
        if r.2 ≥ 9 / 20 then r.1 else none

-- ============================================================================
-- Tag-merge de-duplication (part_003, chat route step 9)
-- ============================================================================

/-- The case-insensitive `(nome, categoria, endereco)` key comparison of the
tag-merge loop. -/
def tripleKeyEq (x p : Parceiro) : Bool :=
  jsLowerStr x.nome == jsLowerStr p.nome &&
  jsLowerStr (x.categoria.getD "") == jsLowerStr (p.categoria.getD "") &&
  jsLowerStr (x.endereco.getD "") == jsLowerStr (p.endereco.getD "")

/-- Merge one tag-query result into the accumulated list, skipping items
whose triple key already occurs. -/
def mergeDedup (itens : List Parceiro) (novos : List Parceiro) : List Parceiro :=
  novos.foldl (fun acc p => if acc.any (fun x => tripleKeyEq x p) then acc else acc ++ [p]) itens

/-- Merge all per-term tag-query results, in term order. -/
def mergeAllTags (itens : List Parceiro) (tagResults : List (List Parceiro)) : List Parceiro :=
  tagResults.foldl mergeDedup itens

-- ============================================================================
-- In-memory conversation fallback store (memoriaConversas)
-- ============================================================================

/-- The argument of `salvarConversaMem`: `parceiro_em_foco = none` models a
nullish field (absent or null), `parceiros_sugeridos = none` models a value
that is not an array. -/
structure PayloadMem where
  parceiro_em_foco : Option Parceiro
  parceiros_sugeridos : Option (List Parceiro)

/-- The `memoriaConversas` map, as an association list where the first
binding of a key wins (a `set` prepends and shadows). -/
def Memoria := List (String × Conversa)

def carregarConversaMem (mem : Memoria) (conversationId : String) : Conversa :=
  (List.lookup conversationId mem).getD ⟨none, []⟩

def salvarConversaMem (mem : Memoria) (conversationId : String) (payload : PayloadMem) : Memoria :=
  let atual := carregarConversaMem mem conversationId
  (conversationId,
    { parceiro_em_foco := match payload.parceiro_em_foco with
        | some p => some p
        | none => atual.parceiro_em_foco
      parceiros_sugeridos := payload.parceiros_sugeridos.getD atual.parceiros_sugeridos }) :: mem

/-- Run a sequence of `salvarConversaMem` calls. -/
def aplicarSalvamentos (ops : List (String × PayloadMem)) (mem : Memoria) : Memoria :=
  ops.foldl (fun m op => salvarConversaMem m op.1 op.2) mem

-- ============================================================================
-- Itinerary branch (server/index.js step 10)
-- ============================================================================

/-- JS `Array.prototype.join(sep)`. -/
def joinSep (sep : String) : List String → String
  | [] => ""
  | [x] => x
  | x :: y :: xs => x ++ sep ++ joinSep sep (y :: xs)

/-- Modelled from the spec: `detectarDias` is called by the roteiro branch of
server/index.js but its definition is not among the included sources.  Per
the spec the branch uses "the requested day count" taken from the message
("1 dia" .. "5 dias", a weekend is two days, default one day). -/
def detectarDias (texto : String) : Nat :=
  let t := normalizar texto
  match [1, 2, 3, 4, 5].find? (fun d => containsSub (toString d ++ " dia").data t) with
  | some d => d
  | none =>
    if containsSub "fim de semana".data t || containsSub "final de semana".data t then 2 else 1

/-- Modelled from the spec: `montarRoteiro` is called by the roteiro branch
of server/index.js but its definition is not among the included sources.
Per the spec the first N candidate items are distributed round-robin across
the requested day count, three slots (manhã/tarde/noite) per day. -/
def montarRoteiro (dias : Nat) (itens : List Parceiro) : List (List Parceiro) :=
  let escolhidos := itens.take (dias * 3)
  (List.range dias).map (fun j => (escolhidos.enum.filter (fun e => e.1 % dias = j)).map Prod.snd)

/-- Modelled from the spec: `montarRoteiroTexto` is called by the roteiro
branch of server/index.js but its definition is not among the included
sources.  It renders the day-by-day structure as text. -/
def montarRoteiroTexto (roteiro : List (List Parceiro)) (cidadeNome : Option String) : String :=
  let cab := match cidadeNome with
    | some n => "Roteiro para " ++ n
    | none => "Roteiro"
  cab ++ joinSep "" (roteiro.enum.map (fun e =>
    "\nDia " ++ toString (e.1 + 1) ++ ": " ++ joinSep "; " (e.2.map (fun p => p.nome))))

/-- The HTTP reply of the chat route. -/
structure ChatResponse where
  status : Nat
  reply : String
  interactionId : Option String
  photoLinks : List String
  conversationId : String
deriving DecidableEq

/-- The roteiro branch of the chat route (server/index.js step 10), after
the candidate items and the relevant dicas have been fetched. -/
def roteiroBranch (textoDoUsuario : String) (cidadeDetectada : Option Cidade)
    (itens : List Parceiro) (dicasRelevantes : List Parceiro)
    (conversationId : String) : ChatResponse :=
  let roteiroDias := detectarDias textoDoUsuario
  let roteiro := montarRoteiro roteiroDias itens
  let textoRoteiro := montarRoteiroTexto roteiro (cidadeDetectada.map (fun c => c.nome))
  let msgDicas :=
    if dicasRelevantes.isEmpty then ""
    else "\n" ++ joinSep "\n" (dicasRelevantes.map (fun d => "• " ++ d.nome ++ ": " ++ jsShowOpt d.descricao))
  let respostaFinal := textoRoteiro ++ msgDicas ++
    "\n\nSe quiser, eu trago **endereço/horário/contato** dos lugares e posso **ajustar por orçamento**."
  let primeiroFoco :=
    match itens.find? (fun p => containsSub p.nome.data respostaFinal.data) with
    | some p => some p
    | none => itens.head?
  let fotos :=
    match primeiroFoco with
    | some p =>
      match p.fotos_parceiros with
      | some l => if l.isEmpty then itens.flatMap (fun q => q.fotos_parceiros.getD []) else l
      | none => itens.flatMap (fun q => q.fotos_parceiros.getD [])
    | none => itens.flatMap (fun q => q.fotos_parceiros.getD [])
  { status := 200, reply := respostaFinal, interactionId := none,
    photoLinks := fotos, conversationId := conversationId }

-- ============================================================================
-- Direct follow-up branch (server/index.js step 7.2)
-- ============================================================================

/-- The direct-detail replies of server/index.js: reply text and photo list
for the focused partner, per detail intent. -/
def followUpDireto (p : Parceiro) (intencao : String) : Option (String × List String) :=
  let fotosDoFoco := p.fotos_parceiros.getD []
  if intencao = "horario" then
    let horario := match p.horario_funcionamento with
      | some h => if h ≠ "" then h else "O parceiro não informou horário de funcionamento."
      | none => "O parceiro não informou horário de funcionamento."
    some ("Horário de " ++ p.nome ++ ": " ++ horario, fotosDoFoco)
  else if intencao = "endereco" then
    let endereco := match p.endereco with
      | some e => if e ≠ "" then e else "Endereço não informado."
      | none => "Endereço não informado."
    some ("Endereço de " ++ p.nome ++ ": " ++ endereco, fotosDoFoco)
  else if intencao = "contato" then
    let contato := match p.contato with
      | some c => if c ≠ "" then c else "Contato não informado."
      | none => "Contato não informado."
    some ("Contato de " ++ p.nome ++ ": " ++ contato, fotosDoFoco)
  else if intencao = "fotos" then
    let possuiFotos := !fotosDoFoco.isEmpty
    if possuiFotos then some ("Aqui estão algumas fotos de " ++ p.nome ++ ".", fotosDoFoco)
    else some ("Não encontrei fotos de " ++ p.nome ++ ".", [])
  else if intencao = "preco" then
    let faixaDePreco := match p.faixa_preco with
      | some f => if f ≠ "" then f else "Faixa de preço não informada."
      | none => "Faixa de preço não informada."
    some ("Faixa de preço de " ++ p.nome ++ ": " ++ faixaDePreco, fotosDoFoco)
  else none

/-- The follow-up turn of server/index.js: when a focused partner exists and
the classified intent is a detail intent, answer from the stored fields and
leave the conversation state untouched (this branch never updates the
`conversas` row). -/
def followUpTurn (conversa : Conversa) (texto : String) (conversationId : String) :
    Option (ChatResponse × Conversa) :=
  match conversa.parceiro_em_foco with
  | none => none
  | some p =>
    let intencao := detectarIntencao texto
    if ["horario", "endereco", "contato", "fotos", "preco"].contains intencao then
      (followUpDireto p intencao).map (fun r =>
        ({ status := 200, reply := r.1, interactionId := none,
           photoLinks := r.2, conversationId := conversationId }, conversa))
    else none

-- ============================================================================
-- Selection branch (part_003, chat route step 7)
-- ============================================================================

/-- The selection branch of the part_003 chat route: when prior suggestions
exist and the follow-up intent is `nenhuma`, try the ordinal extractor and
then the fuzzy matcher; on a match, focus the chosen partner and return its
summary. -/
def selectionBranch (texto : String) (conversa : Conversa) : Option (String × Conversa) :=
  let intencao := detectarIntencaoDeFollowUp texto
  let candidatos := conversa.parceiros_sugeridos
  if !candidatos.isEmpty && intencao == "nenhuma" then
    let porIndice : Option Parceiro :=
      match extrairIndiceEscolhidoP3 texto with
      | some i => if 0 ≤ i ∧ i.toNat < candidatos.length then candidatos.get? i.toNat else none
      | none => none
    let escolhido :=
      match porIndice with
      | some e => some e
      | none => tentarAcharParceiroPorNomeOuCategoria texto candidatos
    escolhido.map (fun e => (resumoDoParceiro e, { conversa with parceiro_em_foco := some e }))
  else none

-- ============================================================================
-- Input validation and best-effort writes (chat and feedback routes)
-- ============================================================================

/-- A JSON value of a request-body field, as far as the validation logic
distinguishes them. -/
inductive JsVal where
  | missing
  | jsNull
  | num (n : Int)
  | boolean (b : Bool)
  | str (s : String)
deriving DecidableEq

/-- The chat route's validation of `message`:
`!message || typeof message !== "string" || !message.trim()`. -/
def validMessage (v : JsVal) : Bool :=
  match v with
  | .str s => s ≠ "" && !(trimBoth s.data).isEmpty
  | _ => false

/-- The feedback route's validation of `interactionId`:
`!interactionId || typeof interactionId !== "string"`. -/
def validInteractionId (v : JsVal) : Bool :=
  match v with
  | .str s => s ≠ ""
  | _ => false

/-- The feedback route's validation of `feedback`:
`!feedback || typeof feedback !== "string" || feedback.trim().length === 0`. -/
def validFeedback (v : JsVal) : Bool :=
  match v with
  | .str s => s ≠ "" && !(trimBoth s.data).isEmpty
  | _ => false

/-- A database write performed by a route. -/
inductive Write where
  | conversaInsert (conversationId : String)
  | conversaUpdate (conversationId : String)
  | buscasTexto (texto : String)
  | analyticsSearch (texto : String)
  | viewUpdate (parceiroId : String)
  | viewInsert (parceiroId : String)
  | analyticsPartnerView (parceiroId : String)
  | interacaoInsert (pergunta resposta : String)
  | feedbackUpdate (interactionId feedback : String)
  | analyticsFeedback (interactionId : String)
deriving DecidableEq

/-- A generic HTTP response of a route. -/
structure Response where
  status : Nat
  body : String
deriving DecidableEq

def chatMessageError : String :=
  "O campo 'message' é obrigatório e deve ser uma string não vazia."

def feedbackIdError : String :=
  "O campo 'interactionId' é obrigatório e deve ser uma string (uuid)."

def feedbackTextError : String :=
  "O campo 'feedback' é obrigatório e deve ser uma string não vazia."

/-- Primary-path read results the chat route prefix depends on. -/
structure ChatDb where
  regiao : Option String
  cidades : Option (List Cidade)

/-- State carried past the prefix of the chat route. -/
structure ChatPrefixState where
  regiaoId : String
  cidades : List Cidade
deriving DecidableEq

/-- The prefix of the chat route (server/index.js steps 0-6): message
validation, region resolution (404 when absent), city read (500 on error),
then the best-effort search-metrics writes.  `Sum.inl` is an early return. -/
def chatRoutePrefix (message : JsVal) (db : ChatDb) :
    Sum (Response × List Write) (ChatPrefixState × List Write) :=
  match message with
  | .str s =>
    if s ≠ "" && !(trimBoth s.data).isEmpty then
      match db.regiao with
      | none => Sum.inl ({ status := 404, body := "Região não encontrada." }, [])
      | some regiaoId =>
        match db.cidades with
        | none => Sum.inl ({ status := 500, body := "Erro ao carregar cidades." }, [])
        | some cidades =>
          Sum.inr ({ regiaoId := regiaoId, cidades := cidades },
            [Write.buscasTexto s, Write.analyticsSearch s])
    else Sum.inl ({ status := 400, body := chatMessageError }, [])
  | _ => Sum.inl ({ status := 400, body := chatMessageError }, [])

/-- Outcome of the `interacoes` update in the feedback route. -/
structure FeedbackDb where
  updateOk : Bool
  analyticsOk : Bool

/-- The feedback route (server/index.js): field validation, then the
`interacoes` update (500 on error), then a best-effort analytics insert. -/
def feedbackRoute (interactionId feedback : JsVal) (db : FeedbackDb) :
    Response × List Write :=
  match interactionId with
  | .str iid =>
    if iid ≠ "" then
      match feedback with
      | .str fb =>
        if fb ≠ "" && !(trimBoth fb.data).isEmpty then
          if db.updateOk then
            let w := [Write.feedbackUpdate iid fb] ++
              (if db.analyticsOk then [Write.analyticsFeedback iid] else [])
            ({ status := 200, body := "Feedback registrado com sucesso." }, w)
          else ({ status := 500, body := "Erro ao registrar feedback." }, [])
        else ({ status := 400, body := feedbackTextError }, [])
      | _ => ({ status := 400, body := feedbackTextError }, [])
    else ({ status := 400, body := feedbackIdError }, [])
  | _ => ({ status := 400, body := feedbackIdError }, [])

-- ============================================================================
-- Best-effort side writes at the end of a chat turn (steps 14-16)
-- ============================================================================

/-- A row of `parceiro_views`. -/
structure ViewRow where
  views_total : Option Nat
deriving DecidableEq

/-- Results of the side-write database calls of steps 14-15; `Except.error`
models a thrown/failed call. -/
structure SideOutcomes where
  viewSelect : Except Unit (Option ViewRow)
  viewWrite : Except Unit Unit
  analyticsInsert : Except Unit Unit
  interInsert : Except Unit (Option String)

/-- The writes actually performed by the try/catch block of step 14 (view
counter + partner-view analytics); a failure aborts the rest of the block
and is swallowed. -/
def step14Writes (foco : Option Parceiro) (o : SideOutcomes) : List Write :=
  match foco with
  | none => []
  | some p =>
    if p.id = "" then []
    else
      match o.viewSelect with
      | .error _ => []
      | .ok row =>
        match row, o.viewWrite with
        | some _, .error _ => []
        | some _, .ok _ =>
          [Write.viewUpdate p.id] ++
            (match o.analyticsInsert with
             | .ok _ => [Write.analyticsPartnerView p.id]
             | .error _ => [])
        | none, .error _ => []
        | none, .ok _ =>
          [Write.viewInsert p.id] ++
            (match o.analyticsInsert with
             | .ok _ => [Write.analyticsPartnerView p.id]
             | .error _ => [])

/-- Steps 14-16 of the chat route: best-effort view metrics, best-effort
interaction insert (its failure only nulls the returned interactionId), and
the final 200 response built from `textoIA`. -/
def finalizarTurno (textoIA : String) (textoDoUsuario : String) (foco : Option Parceiro)
    (itens : List Parceiro) (conversationId : String) (o : SideOutcomes) :
    ChatResponse × List Write :=
  let w14 := step14Writes foco o
  let (interactionId, w15) :=
    match o.interInsert with
    | .ok idOpt => (idOpt, [Write.interacaoInsert textoDoUsuario textoIA])
    | .error _ => (none, [])
  let fotosParaCliente :=
    match foco with
    | some p =>
      match p.fotos_parceiros with
      | some l => l
      | none => itens.flatMap (fun q => q.fotos_parceiros.getD [])
    | none => itens.flatMap (fun q => q.fotos_parceiros.getD [])
  ({ status := 200, reply := textoIA, interactionId := interactionId,
     photoLinks := fotosParaCliente, conversationId := conversationId }, w14 ++ w15)

-- ============================================================================
-- Helper lemmas
-- ============================================================================

theorem isPre_iff (n h : Str) : isPre n h = true ↔ ∃ rest, h = n ++ rest := by
  induction n generalizing h with
  | nil => simp [isPre]
  | cons a as ih =>
    cases h with
    | nil =>
      simp [isPre]
    | cons b bs =>
      simp only [isPre, Bool.and_eq_true, beq_iff_eq]
      constructor
      · rintro ⟨rfl, hp⟩
        obtain ⟨rest, rfl⟩ := (ih bs).mp hp
        exact ⟨rest, rfl⟩
      · rintro ⟨rest, heq⟩
        rw [List.cons_append] at heq
        injection heq with h1 h2
        exact ⟨h1.symm, (ih bs).mpr ⟨rest, h2⟩⟩

theorem containsSub_iff (n h : Str) :
    containsSub n h = true ↔ ∃ pre post, h = pre ++ n ++ post := by
  induction h with
  | nil =>
    simp only [containsSub, List.isEmpty_iff]
    constructor
    · rintro rfl; exact ⟨[], [], rfl⟩
    · rintro ⟨pre, post, hp⟩
      rcases List.append_eq_nil.mp (List.append_eq_nil.mp hp.symm).1 with ⟨-, h2⟩
      exact h2
  | cons c t ih =>
    simp only [containsSub, Bool.or_eq_true, isPre_iff, ih]
    constructor
    · rintro (⟨rest, hr⟩ | ⟨pre, post, hp⟩)
      · exact ⟨[], rest, by simpa using hr⟩
      · exact ⟨c :: pre, post, by simp [hp]⟩
    · rintro ⟨pre, post, hp⟩
      cases pre with
      | nil => exact Or.inl ⟨post, by simpa using hp⟩
      | cons x xs =>
        right
        rw [List.cons_append, List.cons_append] at hp
        injection hp with h1 h2
        exact ⟨xs, post, h2⟩

theorem containsSub_append_right (n a b : Str) (hb : containsSub n b = true) :
    containsSub n (a ++ b) = true := by
  rw [containsSub_iff] at hb ⊢
  obtain ⟨pre, post, rfl⟩ := hb
  exact ⟨a ++ pre, post, by simp⟩

theorem containsSub_append_left (n a b : Str) (ha : containsSub n a = true) :
    containsSub n (a ++ b) = true := by
  rw [containsSub_iff] at ha ⊢
  obtain ⟨pre, post, rfl⟩ := ha
  exact ⟨pre, post ++ b, by simp⟩

theorem containsSub_refl_append (n post : Str) :
    containsSub n (n ++ post) = true := by
  rw [containsSub_iff]; exact ⟨[], post, rfl⟩

theorem containsSub_middle (a n b : Str) :
    containsSub n (a ++ (n ++ b)) = true := by
  rw [containsSub_iff]; exact ⟨a, b, by simp⟩

theorem containsSub_at_end (a n : Str) :
    containsSub n (a ++ n) = true := by
  rw [containsSub_iff]; exact ⟨a, [], by simp⟩

-- ============================================================================
-- C5: intent classifier
-- ============================================================================

/-- C5: the intent classifier `detectarIntencao` is total with values in the
closed label set, and agrees with the specification-side classifier that
returns the first matching category in the priority order roteiro, detail
intents, dica, defaulting to `nenhuma`. -/
theorem c5_intent_classifier_total (texto : String) :
    detectarIntencao texto = specDetectarIntencao texto ∧
    detectarIntencao texto ∈ intencaoLabels := by
  constructor
  · unfold detectarIntencao specDetectarIntencao
    cases hR : padroesRoteiro.any (fun p => containsSub p.data (normalizar texto)) with
    | true => simp [hR, List.find?_cons]
    | false =>
      simp only [hR, List.find?_cons, List.find?_append, Bool.false_eq_true, if_false]
      cases hM : mapaDetalhes.find?
          (fun item => item.2.any (fun p => containsSub p.data (normalizar texto))) with
      | some item => simp [hM]
      | none =>
        cases hD : dicasGatilhos.any (fun p => containsSub p.data (normalizar texto)) with
        | true => simp [hM, hD, List.find?_cons]
        | false => simp [hM, hD, List.find?_cons]
  · unfold detectarIntencao
    cases hR : padroesRoteiro.any (fun p => containsSub p.data (normalizar texto)) with
    | true => simp [hR, intencaoLabels]
    | false =>
      simp only [hR, Bool.false_eq_true, if_false]
      cases hM : mapaDetalhes.find?
          (fun item => item.2.any (fun p => containsSub p.data (normalizar texto))) with
      | some item =>
        have hmem := List.mem_of_find?_eq_some hM
        simp only [intencaoLabels]
        simp only [mapaDetalhes, List.mem_cons, List.not_mem_nil, or_false] at hmem
        rcases hmem with rfl | rfl | rfl | rfl | rfl <;> simp
      | none =>
        cases hD : dicasGatilhos.any (fun p => containsSub p.data (normalizar texto)) with
        | true => simp [hM, hD, intencaoLabels]
        | false => simp [hM, hD, intencaoLabels]

-- ============================================================================
-- C10: in-memory conversation fallback store
-- ============================================================================

/-- C10: invariants of the in-memory fallback store.  After any sequence of
`salvarConversaMem` calls, a conversation id that never appeared loads as
the default record (no focus, empty suggestion list), and a save whose
`parceiros_sugeridos` is not an array keeps the previously stored list
while merging the focus with the nullish-coalescing rule of the source.
(The loaded record always has both fields, with `parceiros_sugeridos` a
list, by the shape of `Conversa`.) -/
theorem c10_memoria_conversas :
    (∀ (ops : List (String × PayloadMem)) (cid : String),
      (∀ op ∈ ops, op.1 ≠ cid) →
      carregarConversaMem (aplicarSalvamentos ops []) cid = ⟨none, []⟩) ∧
    (∀ (mem : Memoria) (cid : String) (payload : PayloadMem),
      payload.parceiros_sugeridos = none →
      (carregarConversaMem (salvarConversaMem mem cid payload) cid).parceiros_sugeridos
        = (carregarConversaMem mem cid).parceiros_sugeridos ∧
      (carregarConversaMem (salvarConversaMem mem cid payload) cid).parceiro_em_foco
        = (match payload.parceiro_em_foco with
           | some p => some p
           | none => (carregarConversaMem mem cid).parceiro_em_foco)) := by
  constructor
  · have hgen : ∀ (ops : List (String × PayloadMem)) (mem : Memoria) (cid : String),
        (∀ op ∈ ops, op.1 ≠ cid) →
        carregarConversaMem (aplicarSalvamentos ops mem) cid = carregarConversaMem mem cid := by
      intro ops
      induction ops with
      | nil => intro mem cid _; rfl
      | cons op rest ih =>
        intro mem cid hops
        have hop : op.1 ≠ cid := hops op (List.mem_cons_self op rest)
        have hrest : ∀ o ∈ rest, o.1 ≠ cid := fun o ho => hops o (List.mem_cons_of_mem op ho)
        show carregarConversaMem (aplicarSalvamentos rest (salvarConversaMem mem op.1 op.2)) cid = _
        rw [ih (salvarConversaMem mem op.1 op.2) cid hrest]
        unfold carregarConversaMem salvarConversaMem
        simp [List.lookup_cons, beq_false_of_ne (Ne.symm hop)]
    intro ops cid hops
    rw [hgen ops [] cid hops]
    rfl
  · intro mem cid payload hnone
    unfold carregarConversaMem salvarConversaMem
    simp only [List.lookup_cons, beq_self_eq_true, Option.getD_some, hnone]
    constructor
    · rfl
    · cases payload.parceiro_em_foco <;> rfl

-- ============================================================================
-- C4: input validation returns 400 with no prior writes
-- ============================================================================

/-- C4: a chat request whose `message` is missing, not a string, or
empty/whitespace is answered 400 with the static message and no database
write; a feedback request with a missing `interactionId` or a
missing/empty `feedback` (including the empty string) is answered 400 with
a static message and no database write. -/
theorem c4_validation_400_no_writes :
    (∀ (m : JsVal) (db : ChatDb), validMessage m = false →
      chatRoutePrefix m db = Sum.inl ({ status := 400, body := chatMessageError }, [])) ∧
    (∀ (iid fb : JsVal) (db : FeedbackDb),
      validInteractionId iid = false ∨ validFeedback fb = false →
      (feedbackRoute iid fb db).2 = [] ∧
      (feedbackRoute iid fb db).1.status = 400 ∧
      ((feedbackRoute iid fb db).1.body = feedbackIdError ∨
       (feedbackRoute iid fb db).1.body = feedbackTextError)) := by
  constructor
  · intro m db hv
    cases m with
    | str s =>
      simp only [validMessage] at hv
      have h' : ¬(¬s = "" ∧ ¬trimBoth s.data = []) := by
        intro hc
        simp [hc.1, hc.2] at hv
      unfold chatRoutePrefix
      simp [h']
    | missing => rfl
    | jsNull => rfl
    | num n => rfl
    | boolean b => rfl
  · intro iid fb db h
    cases iid with
    | missing => exact ⟨rfl, rfl, Or.inl rfl⟩
    | jsNull => exact ⟨rfl, rfl, Or.inl rfl⟩
    | num n => exact ⟨rfl, rfl, Or.inl rfl⟩
    | boolean b => exact ⟨rfl, rfl, Or.inl rfl⟩
    | str s =>
      by_cases hs : s = ""
      · subst hs
        unfold feedbackRoute
        simp
      · have hfb : validFeedback fb = false := by
          rcases h with h1 | h2
          · simp [validInteractionId, hs] at h1
          · exact h2
        cases fb with
        | str t =>
          simp only [validFeedback] at hfb
          have h' : ¬(¬t = "" ∧ ¬trimBoth t.data = []) := by
            intro hc
            simp [hc.1, hc.2] at hfb
          unfold feedbackRoute
          simp [hs, h']
        | missing => unfold feedbackRoute; simp [hs]
        | jsNull => unfold feedbackRoute; simp [hs]
        | num n => unfold feedbackRoute; simp [hs]
        | boolean b => unfold feedbackRoute; simp [hs]

/-- C4 witness: the empty-string feedback scenario and an empty chat
message both short-circuit with 400 and no writes. -/
theorem c4_validation_400_no_writes_witness :
    (validMessage (JsVal.str "") = false ∧
     validInteractionId JsVal.missing = false) ∧
    chatRoutePrefix (JsVal.str "") ⟨some "r1", some []⟩
      = Sum.inl ({ status := 400, body := chatMessageError }, []) ∧
    ((feedbackRoute (JsVal.str "abc") (JsVal.str "") ⟨true, true⟩).2 = [] ∧
     (feedbackRoute (JsVal.str "abc") (JsVal.str "") ⟨true, true⟩).1.status = 400 ∧
     ((feedbackRoute (JsVal.str "abc") (JsVal.str "") ⟨true, true⟩).1.body = feedbackIdError ∨
      (feedbackRoute (JsVal.str "abc") (JsVal.str "") ⟨true, true⟩).1.body = feedbackTextError)) :=
  ⟨⟨by decide, by decide⟩,
   (c4_validation_400_no_writes).1 (JsVal.str "") ⟨some "r1", some []⟩ (by decide),
   (c4_validation_400_no_writes).2 (JsVal.str "abc") (JsVal.str "") ⟨true, true⟩
     (Or.inr (by decide))⟩

-- ============================================================================
-- C3: best-effort side writes never affect the reply
-- ============================================================================

/-- C3: at the end of a chat turn, the reply and the 200 status are
independent of the outcomes of the best-effort side writes (view counter,
partner-view analytics, interaction insert): any combination of failures is
swallowed and the response carries the same reply text as the all-success
run. -/
theorem c3_side_writes_swallowed (textoIA textoDoUsuario : String)
    (foco : Option Parceiro) (itens : List Parceiro) (conversationId : String)
    (o o' : SideOutcomes) :
    (finalizarTurno textoIA textoDoUsuario foco itens conversationId o).1.status = 200 ∧
    (finalizarTurno textoIA textoDoUsuario foco itens conversationId o).1.reply = textoIA ∧
    (finalizarTurno textoIA textoDoUsuario foco itens conversationId o).1.reply
      = (finalizarTurno textoIA textoDoUsuario foco itens conversationId o').1.reply ∧
    (finalizarTurno textoIA textoDoUsuario foco itens conversationId o).1.photoLinks
      = (finalizarTurno textoIA textoDoUsuario foco itens conversationId o').1.photoLinks := by
  unfold finalizarTurno
  cases h : o.interInsert <;> cases h' : o'.interInsert <;> simp

-- ============================================================================
-- C9: detail follow-up answers from the focused item, state unchanged
-- ============================================================================

/-- C9: when the conversation has a focused partner and the classified
intent is a detail intent, the follow-up branch answers with a 200 reply
that embeds the partner's name (and, for `horario`, the stored hours when
present and non-empty), and returns the conversation state unchanged. -/
theorem c9_followup_detail (conversa : Conversa) (p : Parceiro)
    (texto conversationId : String)
    (hfoco : conversa.parceiro_em_foco = some p)
    (hdet : detectarIntencao texto ∈ (["horario", "endereco", "contato", "fotos", "preco"] : List String)) :
    ∃ resp : ChatResponse,
      followUpTurn conversa texto conversationId = some (resp, conversa) ∧
      resp.status = 200 ∧
      containsSub p.nome.data resp.reply.data = true ∧
      (detectarIntencao texto = "horario" →
        ∀ h, p.horario_funcionamento = some h → h ≠ "" →
          containsSub h.data resp.reply.data = true) := by
  unfold followUpTurn
  rw [hfoco]
  simp only [List.mem_cons, List.mem_singleton, List.not_mem_nil, or_false] at hdet
  rcases hdet with hi | hi | hi | hi | hi
  all_goals rw [hi]
  · -- horario
    refine ⟨⟨200, "Horário de " ++ p.nome ++ ": " ++
        (match p.horario_funcionamento with
         | some h => if h ≠ "" then h else "O parceiro não informou horário de funcionamento."
         | none => "O parceiro não informou horário de funcionamento."), none,
        p.fotos_parceiros.getD [], conversationId⟩, ?_, rfl, ?_, ?_⟩
    · simp [followUpDireto]
    · simp only [String.data_append, List.append_assoc]
      exact containsSub_middle _ _ _
    · intro _ h hsome hne
      simp only [hsome, hne, ne_eq, not_false_eq_true, if_true, String.data_append]
      exact containsSub_at_end _ _
  · -- endereco
    refine ⟨⟨200, "Endereço de " ++ p.nome ++ ": " ++
        (match p.endereco with
         | some e => if e ≠ "" then e else "Endereço não informado."
         | none => "Endereço não informado."), none,
        p.fotos_parceiros.getD [], conversationId⟩, ?_, rfl, ?_, ?_⟩
    · simp [followUpDireto]
    · simp only [String.data_append, List.append_assoc]
      exact containsSub_middle _ _ _
    · intro hc
      simp at hc
  · -- contato
    refine ⟨⟨200, "Contato de " ++ p.nome ++ ": " ++
        (match p.contato with
         | some c => if c ≠ "" then c else "Contato não informado."
         | none => "Contato não informado."), none,
        p.fotos_parceiros.getD [], conversationId⟩, ?_, rfl, ?_, ?_⟩
    · simp [followUpDireto]
    · simp only [String.data_append, List.append_assoc]
      exact containsSub_middle _ _ _
    · intro hc
      simp at hc
  · -- fotos
    by_cases hf : (p.fotos_parceiros.getD []).isEmpty
    · refine ⟨⟨200, "Não encontrei fotos de " ++ p.nome ++ ".", none, [], conversationId⟩,
        ?_, rfl, ?_, ?_⟩
      · simp [followUpDireto, hf]
      · simp only [String.data_append, List.append_assoc]
        exact containsSub_middle _ _ _
      · intro hc
        simp at hc
    · refine ⟨⟨200, "Aqui estão algumas fotos de " ++ p.nome ++ ".", none,
        p.fotos_parceiros.getD [], conversationId⟩, ?_, rfl, ?_, ?_⟩
      · simp [followUpDireto, hf]
      · simp only [String.data_append, List.append_assoc]
        exact containsSub_middle _ _ _
      · intro hc
        simp at hc
  · -- preco
    refine ⟨⟨200, "Faixa de preço de " ++ p.nome ++ ": " ++
        (match p.faixa_preco with
         | some f => if f ≠ "" then f else "Faixa de preço não informada."
         | none => "Faixa de preço não informada."), none,
        p.fotos_parceiros.getD [], conversationId⟩, ?_, rfl, ?_, ?_⟩
    · simp [followUpDireto]
    · simp only [String.data_append, List.append_assoc]
      exact containsSub_middle _ _ _
    · intro hc
      simp at hc


/-- C9 witness: the spec's Scenario 2 — message "qual o horário?" with a
focused partner whose hours are "9h-18h": the reply embeds both the hours
and the name, and the state is unchanged. -/
theorem c9_followup_detail_witness :
    (detectarIntencao "qual o horário?" ∈
      (["horario", "endereco", "contato", "fotos", "preco"] : List String)) ∧
    ∃ resp : ChatResponse,
      followUpTurn
        ⟨some ⟨"x1", some "PARCEIRO", "Bar do X", some "bar", none, none, none, none, none,
          some "9h-18h", none, none, "c1"⟩, []⟩ "qual o horário?" "conv1"
        = some (resp,
            ⟨some ⟨"x1", some "PARCEIRO", "Bar do X", some "bar", none, none, none, none, none,
              some "9h-18h", none, none, "c1"⟩, []⟩) ∧
      resp.status = 200 ∧
      containsSub "Bar do X".data resp.reply.data = true ∧
      (detectarIntencao "qual o horário?" = "horario" →
        ∀ h, (some "9h-18h" : Option String) = some h → h ≠ "" →
          containsSub h.data resp.reply.data = true) :=
  ⟨by decide,
   c9_followup_detail
     ⟨some ⟨"x1", some "PARCEIRO", "Bar do X", some "bar", none, none, none, none, none,
       some "9h-18h", none, none, "c1"⟩, []⟩
     ⟨"x1", some "PARCEIRO", "Bar do X", some "bar", none, none, none, none, none,
       some "9h-18h", none, none, "c1"⟩
     "qual o horário?" "conv1" rfl (by decide)⟩

-- ============================================================================
-- C2: selection of a suggested partner by ordinal or fuzzy match
-- ============================================================================

/-- C2: when prior suggestions exist and the follow-up intent is `nenhuma`,
the selection branch tries the ordinal extractor first and the fuzzy
partner matcher second; on a match it focuses the chosen item and returns
its summary. -/
theorem c2_selection_branch (texto : String) (conversa : Conversa)
    (h2 : conversa.parceiros_sugeridos ≠ [])
    (h3 : detectarIntencaoDeFollowUp texto = "nenhuma") :
    (∀ (i : Int) (e : Parceiro), extrairIndiceEscolhidoP3 texto = some i → 0 ≤ i →
      conversa.parceiros_sugeridos.get? i.toNat = some e →
      selectionBranch texto conversa
        = some (resumoDoParceiro e, { conversa with parceiro_em_foco := some e })) ∧
    ((extrairIndiceEscolhidoP3 texto = none ∨
      ∀ i : Int, extrairIndiceEscolhidoP3 texto = some i →
        conversa.parceiros_sugeridos.length ≤ i.toNat) →
      ∀ e : Parceiro,
        tentarAcharParceiroPorNomeOuCategoria texto conversa.parceiros_sugeridos = some e →
        selectionBranch texto conversa
          = some (resumoDoParceiro e, { conversa with parceiro_em_foco := some e })) := by
  have hne : conversa.parceiros_sugeridos.isEmpty = false := by
    simpa [List.isEmpty_iff] using h2
  constructor
  · intro i e hext hpos hget
    have hlt : i.toNat < conversa.parceiros_sugeridos.length := List.get?_eq_some.mp hget |>.1
    unfold selectionBranch
    simp only [h3, hne, hext, Bool.not_false, beq_self_eq_true, Bool.and_self, if_true,
      hpos, hlt, and_self, if_pos, hget, Option.map_some']
  · intro hfail e hten
    unfold selectionBranch
    rcases hfail with hnone | hbig
    · simp only [h3, hne, hnone, Bool.not_false, beq_self_eq_true, Bool.and_self, if_true,
        hten, Option.map_some']
    · cases hext : extrairIndiceEscolhidoP3 texto with
      | none =>
        simp only [h3, hne, hext, Bool.not_false, beq_self_eq_true, Bool.and_self, if_true,
          hten, Option.map_some']
      | some i =>
        have hge := hbig i hext
        have hcond : ¬(0 ≤ i ∧ i.toNat < conversa.parceiros_sugeridos.length) := by
          rintro ⟨-, hlt⟩
          omega
        simp only [h3, hne, hext, Bool.not_false, beq_self_eq_true, Bool.and_self, if_true,
          hcond, if_neg, if_false, hten, Option.map_some']

/-- C2 witness: the spec's Scenario 1 — message "2" against suggestions
[A, B, C] and no focus yields the summary of B and new focus B. -/
theorem c2_selection_branch_witness :
    ((⟨none, [⟨"a", some "PARCEIRO", "Alfa", some "restaurante", none, none, none, none, none, none, none, none, "c1"⟩,
              ⟨"b", some "PARCEIRO", "Beta", some "pizzaria", none, none, none, none, none, none, none, none, "c1"⟩,
              ⟨"c", some "PARCEIRO", "Gama", some "bar", none, none, none, none, none, none, none, none, "c1"⟩]⟩ : Conversa).parceiros_sugeridos ≠ [] ∧
     detectarIntencaoDeFollowUp "2" = "nenhuma" ∧
     extrairIndiceEscolhidoP3 "2" = some 1) ∧
    selectionBranch "2"
      ⟨none, [⟨"a", some "PARCEIRO", "Alfa", some "restaurante", none, none, none, none, none, none, none, none, "c1"⟩,
              ⟨"b", some "PARCEIRO", "Beta", some "pizzaria", none, none, none, none, none, none, none, none, "c1"⟩,
              ⟨"c", some "PARCEIRO", "Gama", some "bar", none, none, none, none, none, none, none, none, "c1"⟩]⟩
      = some (resumoDoParceiro ⟨"b", some "PARCEIRO", "Beta", some "pizzaria", none, none, none, none, none, none, none, none, "c1"⟩,
          ⟨some ⟨"b", some "PARCEIRO", "Beta", some "pizzaria", none, none, none, none, none, none, none, none, "c1"⟩,
           [⟨"a", some "PARCEIRO", "Alfa", some "restaurante", none, none, none, none, none, none, none, none, "c1"⟩,
            ⟨"b", some "PARCEIRO", "Beta", some "pizzaria", none, none, none, none, none, none, none, none, "c1"⟩,
            ⟨"c", some "PARCEIRO", "Gama", some "bar", none, none, none, none, none, none, none, none, "c1"⟩]⟩) :=
  ⟨⟨by decide, by decide, by decide⟩,
   (c2_selection_branch "2"
      ⟨none, [⟨"a", some "PARCEIRO", "Alfa", some "restaurante", none, none, none, none, none, none, none, none, "c1"⟩,
              ⟨"b", some "PARCEIRO", "Beta", some "pizzaria", none, none, none, none, none, none, none, none, "c1"⟩,
              ⟨"c", some "PARCEIRO", "Gama", some "bar", none, none, none, none, none, none, none, none, "c1"⟩]⟩
      (by decide) (by decide)).1 1
      ⟨"b", some "PARCEIRO", "Beta", some "pizzaria", none, none, none, none, none, none, none, none, "c1"⟩
      (by decide) (by decide) (by decide)⟩

/-- C10 witness: a save under id "a", then loading the never-saved id "b",
yields the default record; a save with a non-array suggestion payload keeps
the stored list and applies the nullish-coalescing focus rule. -/
theorem c10_memoria_conversas_witness :
    ((∀ op ∈ ([("a", (⟨none, none⟩ : PayloadMem))] : List (String × PayloadMem)), op.1 ≠ "b") ∧
      (⟨none, (none : Option (List Parceiro))⟩ : PayloadMem).parceiros_sugeridos = none) ∧
    carregarConversaMem
        (aplicarSalvamentos [("a", (⟨none, none⟩ : PayloadMem))] []) "b" = ⟨none, []⟩ ∧
    ((carregarConversaMem (salvarConversaMem [] "x" ⟨none, none⟩) "x").parceiros_sugeridos
        = (carregarConversaMem [] "x").parceiros_sugeridos ∧
     (carregarConversaMem (salvarConversaMem [] "x" ⟨none, none⟩) "x").parceiro_em_foco
        = (match (⟨none, none⟩ : PayloadMem).parceiro_em_foco with
           | some p => some p
           | none => (carregarConversaMem [] "x").parceiro_em_foco)) :=
  ⟨⟨by decide, rfl⟩,
   (c10_memoria_conversas).1 [("a", ⟨none, none⟩)] "b" (by decide),
   (c10_memoria_conversas).2 [] "x" ⟨none, none⟩ rfl⟩

-- ============================================================================
-- C8: tag-merge de-duplication
-- ============================================================================

theorem mergeDedup_pairwise (novos : List Parceiro) :
    ∀ acc : List Parceiro,
      acc.Pairwise (fun a b => tripleKeyEq a b = false) →
      (mergeDedup acc novos).Pairwise (fun a b => tripleKeyEq a b = false) := by
  induction novos with
  | nil => intro acc h; exact h
  | cons p rest ih =>
    intro acc h
    have hstep : mergeDedup acc (p :: rest)
        = mergeDedup (if acc.any (fun x => tripleKeyEq x p) then acc else acc ++ [p]) rest := rfl
    rw [hstep]
    by_cases hany : acc.any (fun x => tripleKeyEq x p) = true
    · rw [if_pos hany]; exact ih acc h
    · rw [if_neg hany]
      apply ih
      rw [List.pairwise_append]
      refine ⟨h, List.pairwise_singleton _ _, ?_⟩
      intro a ha b hb
      have hb' : b = p := by simpa using hb
      subst hb'
      have hf : acc.any (fun x => tripleKeyEq x b) = false := by simpa using hany
      have := List.any_eq_false.mp hf a ha
      simpa using this

theorem mergeDedup_mem (novos : List Parceiro) :
    ∀ (acc : List Parceiro) (x : Parceiro),
      x ∈ mergeDedup acc novos → x ∈ acc ∨ x ∈ novos := by
  induction novos with
  | nil => intro acc x hx; exact Or.inl hx
  | cons p rest ih =>
    intro acc x hx
    have hstep : mergeDedup acc (p :: rest)
        = mergeDedup (if acc.any (fun x => tripleKeyEq x p) then acc else acc ++ [p]) rest := rfl
    rw [hstep] at hx
    by_cases hany : acc.any (fun x => tripleKeyEq x p) = true
    · rw [if_pos hany] at hx
      rcases ih acc x hx with h1 | h2
      · exact Or.inl h1
      · exact Or.inr (List.mem_cons_of_mem p h2)
    · rw [if_neg hany] at hx
      rcases ih (acc ++ [p]) x hx with h1 | h2
      · rcases List.mem_append.mp h1 with h1a | h1b
        · exact Or.inl h1a
        · exact Or.inr (by simpa using Or.inl (by simpa using h1b))
      · exact Or.inr (List.mem_cons_of_mem p h2)

/-- C8: the tag-merge loop skips any incoming item whose case-insensitive
(nome, categoria, endereco) triple already occurs in the accumulated list:
if the wildcard results are triple-distinct, the merged output stays
triple-distinct (so two results differing only outside the triple, e.g.
only in id, contribute at most one entry), and every merged entry comes
from the wildcard results or from some tag result. -/
theorem c8_merge_dedup (itens : List Parceiro) (tagss : List (List Parceiro))
    (h : itens.Pairwise (fun a b => tripleKeyEq a b = false)) :
    (mergeAllTags itens tagss).Pairwise (fun a b => tripleKeyEq a b = false) ∧
    ∀ p ∈ mergeAllTags itens tagss, p ∈ itens ∨ ∃ l ∈ tagss, p ∈ l := by
  induction tagss generalizing itens with
  | nil => exact ⟨h, fun p hp => Or.inl hp⟩
  | cons tl rest ih =>
    have hstep : mergeAllTags itens (tl :: rest) = mergeAllTags (mergeDedup itens tl) rest := rfl
    rw [hstep]
    have h1 := ih (mergeDedup itens tl) (mergeDedup_pairwise tl itens h)
    refine ⟨h1.1, ?_⟩
    intro p hp
    rcases h1.2 p hp with hin | ⟨l, hl, hpl⟩
    · rcases mergeDedup_mem tl itens p hin with ha | hb
      · exact Or.inl ha
      · exact Or.inr ⟨tl, List.mem_cons_self _ _, hb⟩
    · exact Or.inr ⟨l, List.mem_cons_of_mem _ hl, hpl⟩

/-- C8 witness: a tag result differing from an accumulated item only in its
id collapses; the merged output of [A] with tag results [[A-with-other-id,
B]] is still triple-distinct and drawn from the inputs. -/
theorem c8_merge_dedup_witness :
    ([⟨"a1", none, "Alfa", some "Restaurante", none, none, some "Rua 1", none, none, none, none, none, "c1"⟩] :
        List Parceiro).Pairwise (fun a b => tripleKeyEq a b = false) ∧
    ((mergeAllTags
        [⟨"a1", none, "Alfa", some "Restaurante", none, none, some "Rua 1", none, none, none, none, none, "c1"⟩]
        [[⟨"a2", none, "ALFA", some "restaurante", none, none, some "rua 1", none, none, none, none, none, "c1"⟩,
          ⟨"b1", none, "Beta", some "bar", none, none, none, none, none, none, none, none, "c1"⟩]]).Pairwise
        (fun a b => tripleKeyEq a b = false) ∧
      ∀ p ∈ mergeAllTags
        [⟨"a1", none, "Alfa", some "Restaurante", none, none, some "Rua 1", none, none, none, none, none, "c1"⟩]
        [[⟨"a2", none, "ALFA", some "restaurante", none, none, some "rua 1", none, none, none, none, none, "c1"⟩,
          ⟨"b1", none, "Beta", some "bar", none, none, none, none, none, none, none, none, "c1"⟩]],
        p ∈ ([⟨"a1", none, "Alfa", some "Restaurante", none, none, some "Rua 1", none, none, none, none, none, "c1"⟩] : List Parceiro) ∨
        ∃ l ∈ ([[⟨"a2", none, "ALFA", some "restaurante", none, none, some "rua 1", none, none, none, none, none, "c1"⟩,
                 ⟨"b1", none, "Beta", some "bar", none, none, none, none, none, none, none, none, "c1"⟩]] : List (List Parceiro)),
          p ∈ l) :=
  ⟨by decide,
   c8_merge_dedup
     [⟨"a1", none, "Alfa", some "Restaurante", none, none, some "Rua 1", none, none, none, none, none, "c1"⟩]
     [[⟨"a2", none, "ALFA", some "restaurante", none, none, some "rua 1", none, none, none, none, none, "c1"⟩,
       ⟨"b1", none, "Beta", some "bar", none, none, none, none, none, none, none, none, "c1"⟩]]
     (by decide)⟩

-- ============================================================================
-- C7: fuzzy partner matcher
-- ============================================================================

theorem containsSub_nil_left (l : Str) : containsSub [] l = true := by
  cases l <;> simp [containsSub, isPre]

theorem melhorFold_spec (texto : String) (l : List Parceiro) :
    ∀ acc : Option Parceiro × ℚ,
      acc.2 ≤ (l.foldl
          (fun acc p => let score := scoreOf texto p;
            if score > acc.2 then (some p, score) else acc) acc).2 ∧
      (∀ p ∈ l, scoreOf texto p ≤ (l.foldl
          (fun acc p => let score := scoreOf texto p;
            if score > acc.2 then (some p, score) else acc) acc).2) ∧
      ((l.foldl (fun acc p => let score := scoreOf texto p;
            if score > acc.2 then (some p, score) else acc) acc) = acc ∨
        ∃ p ∈ l, (l.foldl (fun acc p => let score := scoreOf texto p;
            if score > acc.2 then (some p, score) else acc) acc).1 = some p ∧
          (l.foldl (fun acc p => let score := scoreOf texto p;
            if score > acc.2 then (some p, score) else acc) acc).2 = scoreOf texto p) := by
  induction l with
  | nil =>
    intro acc
    exact ⟨le_refl _, fun p hp => absurd hp (List.not_mem_nil p), Or.inl rfl⟩
  | cons p rest ih =>
    intro acc
    have hfold : (p :: rest).foldl
        (fun acc p => let score := scoreOf texto p;
          if score > acc.2 then (some p, score) else acc) acc
        = rest.foldl (fun acc p => let score := scoreOf texto p;
          if score > acc.2 then (some p, score) else acc)
          (if scoreOf texto p > acc.2 then (some p, scoreOf texto p) else acc) := rfl
    rw [hfold]
    by_cases hgt : scoreOf texto p > acc.2
    · rw [if_pos hgt]
      obtain ⟨h1, h2, h3⟩ := ih (some p, scoreOf texto p)
      refine ⟨le_trans (le_of_lt hgt) h1, ?_, ?_⟩
      · intro q hq
        rcases List.mem_cons.mp hq with rfl | hq'
        · exact h1
        · exact h2 q hq'
      · rcases h3 with hc | ⟨q, hq, hq1, hq2⟩
        · exact Or.inr ⟨p, List.mem_cons_self _ _, by rw [hc], by rw [hc]⟩
        · exact Or.inr ⟨q, List.mem_cons_of_mem _ hq, hq1, hq2⟩
    · rw [if_neg hgt]
      obtain ⟨h1, h2, h3⟩ := ih acc
      refine ⟨h1, ?_, ?_⟩
      · intro q hq
        rcases List.mem_cons.mp hq with rfl | hq'
        · exact le_trans (le_of_not_lt hgt) h1
        · exact h2 q hq'
      · rcases h3 with hc | ⟨q, hq, hq1, hq2⟩
        · exact Or.inl hc
        · exact Or.inr ⟨q, List.mem_cons_of_mem _ hq, hq1, hq2⟩

/-- C7: when neither the exact name-containment stage nor the
category/synonym stage matches any candidate, the fuzzy matcher returns
the candidate maximizing the bigram Dice score of the text against
name/category exactly when that maximum reaches 0.45 (= 9/20), and null
when every candidate scores below 0.45. -/
theorem c7_fuzzy_matcher (texto : String) (lista : List Parceiro)
    (h1 : lista.find? (stage1Cond (normalizar texto)) = none)
    (h2 : lista.find? (stage2Cond (normalizar texto)) = none) :
    (tentarAcharParceiroPorNomeOuCategoria texto lista = none ↔
      ∀ p ∈ lista, scoreOf texto p < 9 / 20) ∧
    (∀ p, tentarAcharParceiroPorNomeOuCategoria texto lista = some p →
      p ∈ lista ∧ 9 / 20 ≤ scoreOf texto p ∧
        ∀ q ∈ lista, scoreOf texto q ≤ scoreOf texto p) := by
  by_cases hemp : (normalizar texto).isEmpty = true
  · cases lista with
    | nil =>
      constructor
      · simp [tentarAcharParceiroPorNomeOuCategoria, hemp]
      · intro p hres
        simp [tentarAcharParceiroPorNomeOuCategoria, hemp] at hres
    | cons a as =>
      exfalso
      have hfa := List.find?_eq_none.mp h1 a (List.mem_cons_self _ _)
      have ht : normalizar texto = [] := List.isEmpty_iff.mp hemp
      rw [stage1Cond, ht] at hfa
      simp [containsSub_nil_left] at hfa
  · have hmf : melhorFold texto lista = lista.foldl
        (fun acc p => let score := scoreOf texto p;
          if score > acc.2 then (some p, score) else acc) (none, 0) := rfl
    obtain ⟨hA, hB, hC⟩ := melhorFold_spec texto lista (none, 0)
    simp only [← hmf] at hA hB hC
    have hres : tentarAcharParceiroPorNomeOuCategoria texto lista
        = (if (melhorFold texto lista).2 ≥ 9 / 20 then (melhorFold texto lista).1 else none) := by
      unfold tentarAcharParceiroPorNomeOuCategoria
      simp only [hemp, Bool.false_eq_true, if_false, h1, h2]
    by_cases hge : (melhorFold texto lista).2 ≥ 9 / 20
    · rw [hres, if_pos hge]
      constructor
      · constructor
        · intro hnone
          exfalso
          rcases hC with hc | ⟨p, -, hp1, -⟩
          · rw [hc] at hge
            norm_num at hge
          · rw [hp1] at hnone
            exact Option.noConfusion hnone
        · intro hall
          exfalso
          rcases hC with hc | ⟨p, hp, -, hp2⟩
          · rw [hc] at hge
            norm_num at hge
          · have := hall p hp
            rw [hp2] at hge
            exact absurd hge (not_le.mpr this)
      · intro p hsome
        rcases hC with hc | ⟨q, hq, hq1, hq2⟩
        · rw [hc] at hsome
          exact Option.noConfusion hsome
        · rw [hq1] at hsome
          injection hsome with hqp
          subst hqp
          refine ⟨hq, ?_, ?_⟩
          · rw [hq2] at hge
            exact hge
          · intro q' hq'
            have := hB q' hq'
            rw [hq2] at this
            exact this
    · rw [hres, if_neg hge]
      constructor
      · constructor
        · intro _ p hp
          have hle := hB p hp
          have hlt : (melhorFold texto lista).2 < 9 / 20 := not_le.mp hge
          calc scoreOf texto p ≤ (melhorFold texto lista).2 := hle
            _ < 9 / 20 := hlt
        · intro _
          rfl
      · intro p hsome
        exact Option.noConfusion hsome


/-- C7 witness: text "churascaria" against a single candidate named
"Churrascaria Boi na Brasa": no exact or synonym stage matches, the Dice
score is 20/21 ≥ 0.45, and the matcher returns that candidate with the
maximal score. -/
theorem c7_fuzzy_matcher_witness :
    (([⟨"x", none, "Churrascaria Boi na Brasa", some "churrascaria", none, none, none, none,
        none, none, none, none, "c1"⟩] : List Parceiro).find?
        (stage1Cond (normalizar "churascaria")) = none ∧
     ([⟨"x", none, "Churrascaria Boi na Brasa", some "churrascaria", none, none, none, none,
        none, none, none, none, "c1"⟩] : List Parceiro).find?
        (stage2Cond (normalizar "churascaria")) = none) ∧
    ∀ p, tentarAcharParceiroPorNomeOuCategoria "churascaria"
        [⟨"x", none, "Churrascaria Boi na Brasa", some "churrascaria", none, none, none, none,
          none, none, none, none, "c1"⟩] = some p →
      p ∈ ([⟨"x", none, "Churrascaria Boi na Brasa", some "churrascaria", none, none, none, none,
          none, none, none, none, "c1"⟩] : List Parceiro) ∧
      9 / 20 ≤ scoreOf "churascaria" p ∧
      ∀ q ∈ ([⟨"x", none, "Churrascaria Boi na Brasa", some "churrascaria", none, none, none, none,
          none, none, none, none, "c1"⟩] : List Parceiro),
        scoreOf "churascaria" q ≤ scoreOf "churascaria" p :=
  ⟨⟨by decide, by decide⟩,
   (c7_fuzzy_matcher "churascaria"
     [⟨"x", none, "Churrascaria Boi na Brasa", some "churrascaria", none, none, none, none,
       none, none, none, none, "c1"⟩]
     (by decide) (by decide)).2⟩

-- ============================================================================
-- C6: ordinal/selection extractor
-- ============================================================================

theorem not_ws_of_digit (c : Char) (h : c.isDigit = true) : c.isWhitespace = false := by
  by_contra hw
  rw [Bool.not_eq_false] at hw
  simp only [Char.isWhitespace, Bool.or_eq_true, decide_eq_true_eq] at hw
  rcases hw with ((rfl | rfl) | rfl) | rfl <;> exact absurd h (by decide)

theorem dropWhile_append_ws (ws l : Str) (h : ∀ c ∈ ws, c.isWhitespace = true) :
    (ws ++ l).dropWhile Char.isWhitespace = l.dropWhile Char.isWhitespace := by
  induction ws with
  | nil => rfl
  | cons c t ih =>
    rw [List.cons_append, List.dropWhile_cons, if_pos (h c (List.mem_cons_self _ _))]
    exact ih (fun c hc => h c (List.mem_cons_of_mem _ hc))

theorem dropWhile_ws_digit_head (d : Char) (l : Str) (h : d.isDigit = true) :
    (d :: l).dropWhile Char.isWhitespace = d :: l := by
  rw [List.dropWhile_cons, if_neg]
  simp [not_ws_of_digit d h]

theorem m1Scan_cons_of_try (alts : List (List (List Char))) (c : Char) (t : Str) (v : Nat)
    (h : m1TryAt alts (c :: t) = some v) : m1Scan alts (c :: t) = some v := by
  simp [m1Scan, h]

theorem extrairIndiceTail_nonneg (t : Str) (i : Int) (h : extrairIndiceTail t = some i) :
    0 ≤ i := by
  unfold extrairIndiceTail at h
  have hmap : ∀ j : Int,
      ((mapaOrdinal.find? (fun kv => containsSub kv.1.data t)).map (fun kv => (kv.2 : Int)))
        = some j → 0 ≤ j := by
    intro j hj
    obtain ⟨kv, -, hkv⟩ := Option.map_eq_some'.mp hj
    rw [← hkv]
    exact Int.natCast_nonneg kv.2
  cases hm2 : m2Scan true t with
  | some v =>
    rw [hm2] at h
    have h' : (if ((v : Int) - 1 ≥ 0) then some ((v : Int) - 1)
        else (mapaOrdinal.find? (fun kv => containsSub kv.1.data t)).map
          (fun kv => (kv.2 : Int))) = some i := h
    by_cases hv : (v : Int) - 1 ≥ 0
    · rw [if_pos hv] at h'
      injection h' with h'
      omega
    · rw [if_neg hv] at h'
      exact hmap i h'
  | none =>
    rw [hm2] at h
    exact hmap i h

/-- C6 counterexample: the text "plano 2 opcao 3" contains the explicit
ordinal marker "opcao 3" (N = 3), yet the extractor returns index 1 and not
N-1 = 2: the marker class `n[ºo]` of the m1 regex also matches the "no 2"
inside "plano 2", and the leftmost match wins — so the result is not
independent of the surrounding words. -/
theorem c6_counterexample :
    containsSub ("opcao 3").data (normalizar "plano 2 opcao 3") = true ∧
    extrairIndiceEscolhido "plano 2 opcao 3" = some 1 ∧
    extrairIndiceEscolhido "plano 2 opcao 3" ≠ some (3 - 1 : Int) :=
  ⟨by decide, by decide, by decide⟩

/-- C6 amended: the extractor never returns a negative index (it yields
null or a non-negative index), and it returns N-1 for the leftmost match of
the marker regex; in particular, whenever the normalized text starts with
an explicit marker ("opcao", "numero", "#") followed by optional whitespace
and one or two digits with value N ≥ 1 (not followed by a further digit in
the one-digit case), it returns N-1 regardless of the words that follow.
Marker-like text earlier in the message (such as "no 2", matched by the
regex class `n[ºo]`) can preempt the explicit marker. -/
theorem c6_amended_ordinal_extractor :
    (∀ (texto : String) (i : Int), extrairIndiceEscolhido texto = some i → 0 ≤ i) ∧
    (∀ (texto : String) (marker ws ds rest : Str) (v : Nat),
      (marker = "opcao".data ∨ marker = "numero".data ∨ marker = "#".data) →
      normalizar texto = marker ++ (ws ++ (ds ++ rest)) →
      (∀ c ∈ ws, c.isWhitespace = true) →
      ((∃ d, ds = [d] ∧ d.isDigit = true ∧ v = digitVal d ∧
          (∀ c, rest.head? = some c → c.isDigit = false)) ∨
       (∃ d1 d2, ds = [d1, d2] ∧ d1.isDigit = true ∧ d2.isDigit = true ∧
          v = 10 * digitVal d1 + digitVal d2)) →
      1 ≤ v →
      extrairIndiceEscolhido texto = some ((v : Int) - 1)) := by
  constructor
  · intro texto i h
    simp only [extrairIndiceEscolhido] at h
    cases hm1 : m1Scan m1AltsIndex (normalizar texto) with
    | some v =>
      rw [hm1] at h
      have h' : (if ((v : Int) - 1 ≥ 0) then some ((v : Int) - 1)
          else extrairIndiceTail (normalizar texto)) = some i := h
      by_cases hv : (v : Int) - 1 ≥ 0
      · rw [if_pos hv] at h'
        injection h' with h'
        omega
      · rw [if_neg hv] at h'
        exact extrairIndiceTail_nonneg _ i h'
    | none =>
      rw [hm1] at h
      exact extrairIndiceTail_nonneg _ i h
  · intro texto marker ws ds rest v hmk hnorm hws hds hv
    have hfam : firstAltMatch m1AltsIndex (marker ++ (ws ++ (ds ++ rest)))
        = some (ws ++ (ds ++ rest)) := by
      rcases hmk with rfl | rfl | rfl <;> rfl
    have hdrop : (ws ++ (ds ++ rest)).dropWhile Char.isWhitespace = ds ++ rest := by
      rw [dropWhile_append_ws ws _ hws]
      rcases hds with ⟨d, rfl, hd, -, -⟩ | ⟨d1, d2, rfl, hd1, -, -⟩
      · exact dropWhile_ws_digit_head d rest hd
      · exact dropWhile_ws_digit_head d1 (d2 :: rest) hd1
    have hparse : parseDigits12 (ds ++ rest) = some v := by
      rcases hds with ⟨d, rfl, hd, hveq, hrest⟩ | ⟨d1, d2, rfl, hd1, hd2, hveq⟩
      · show parseDigits12 (d :: rest) = some v
        cases hr : rest with
        | nil => simp [parseDigits12, hd, hveq]
        | cons c3 t3 =>
          have hc3 : c3.isDigit = false := hrest c3 (by rw [hr]; rfl)
          simp [parseDigits12, hd, hc3, hveq]
      · show parseDigits12 (d1 :: d2 :: rest) = some v
        simp [parseDigits12, hd1, hd2, hveq]
    have htry : m1TryAt m1AltsIndex (marker ++ (ws ++ (ds ++ rest))) = some v := by
      simp only [m1TryAt, hfam, hdrop, hparse]
    have hscan : m1Scan m1AltsIndex (marker ++ (ws ++ (ds ++ rest))) = some v := by
      rcases hmk with rfl | rfl | rfl
      · exact m1Scan_cons_of_try m1AltsIndex 'o' _ v htry
      · exact m1Scan_cons_of_try m1AltsIndex 'n' _ v htry
      · exact m1Scan_cons_of_try m1AltsIndex '#' _ v htry
    simp only [extrairIndiceEscolhido]
    rw [hnorm, hscan]
    show (if ((v : Int) - 1 ≥ 0) then some ((v : Int) - 1)
      else extrairIndiceTail (marker ++ (ws ++ (ds ++ rest)))) = some ((v : Int) - 1)
    rw [if_pos (by omega)]

/-- C6 witness: "7" alone maps to the non-negative index 6, and
"opcao 2 em cabo frio" starts with the explicit marker and yields 1
regardless of the trailing words. -/
theorem c6_amended_ordinal_extractor_witness :
    (extrairIndiceEscolhido "7" = some 6 ∧ (0 : Int) ≤ 6) ∧
    (normalizar "opcao 2 em cabo frio"
        = "opcao".data ++ ([' '] ++ (['2'] ++ " em cabo frio".data)) ∧
     extrairIndiceEscolhido "opcao 2 em cabo frio" = some ((2 : Int) - 1)) :=
  ⟨⟨by decide, (c6_amended_ordinal_extractor).1 "7" 6 (by decide)⟩,
   ⟨by decide,
    (c6_amended_ordinal_extractor).2 "opcao 2 em cabo frio" "opcao".data [' '] ['2']
      " em cabo frio".data 2 (Or.inl rfl) (by decide) (by decide)
      (Or.inl ⟨'2', rfl, by decide, by decide, by decide⟩) (by decide)⟩⟩

-- ============================================================================
-- C1: itinerary branch
-- ============================================================================

theorem containsSub_self (n : Str) : containsSub n n = true := by
  have := containsSub_refl_append n []
  simpa using this

theorem containsSub_trans {a b c : Str} (h1 : containsSub a b = true)
    (h2 : containsSub b c = true) : containsSub a c = true := by
  rw [containsSub_iff] at h1 h2 ⊢
  obtain ⟨p, q, rfl⟩ := h1
  obtain ⟨r, s, rfl⟩ := h2
  exact ⟨r ++ p, q ++ s, by simp⟩

theorem joinSep_contains (sep : String) (l : List String) (s : String) (h : s ∈ l) :
    containsSub s.data (joinSep sep l).data = true := by
  induction l with
  | nil => exact absurd h (List.not_mem_nil s)
  | cons x ys ih =>
    cases ys with
    | nil =>
      have hx : s = x := by simpa using h
      subst hx
      exact containsSub_self _
    | cons y zs =>
      rcases List.mem_cons.mp h with rfl | hmem
      · show containsSub s.data (s ++ sep ++ joinSep sep (y :: zs)).data = true
        simp only [String.data_append]
        exact containsSub_append_left _ _ _ (containsSub_append_left _ _ _ (containsSub_self _))
      · show containsSub s.data (x ++ sep ++ joinSep sep (y :: zs)).data = true
        simp only [String.data_append]
        exact containsSub_append_right _ _ _ (ih hmem)

theorem detectarDias_pos (texto : String) : 1 ≤ detectarDias texto := by
  unfold detectarDias
  simp only []
  split
  next d hf =>
    have hmem := List.mem_of_find?_eq_some hf
    simp only [List.mem_cons, List.not_mem_nil, or_false] at hmem
    rcases hmem with rfl | rfl | rfl | rfl | rfl <;> decide
  next =>
    split <;> decide

theorem mem_enumFrom_of_get? {α : Type} (l : List α) :
    ∀ (n i : Nat) (p : α), l.get? i = some p → (n + i, p) ∈ l.enumFrom n := by
  induction l with
  | nil =>
    intro n i p h
    simp [List.get?] at h
  | cons a t ih =>
    intro n i p h
    cases i with
    | zero =>
      have hp : p = a := by
        simpa [List.get?] using h.symm
      subst hp
      simp [List.enumFrom]
    | succ j =>
      have hj := ih (n + 1) j p (by simpa [List.get?] using h)
      have harith : n + (j + 1) = (n + 1) + j := by omega
      rw [harith]
      exact List.mem_cons_of_mem _ hj

theorem mem_enum_of_get? {α : Type} (l : List α) (i : Nat) (p : α)
    (h : l.get? i = some p) : (i, p) ∈ l.enum := by
  have := mem_enumFrom_of_get? l 0 i p h
  simpa using this

theorem montarRoteiro_mem (d : Nat) (itens : List Parceiro) (i : Nat) (p : Parceiro)
    (hd : 1 ≤ d) (hget : (itens.take (d * 3)).get? i = some p) :
    p ∈ (montarRoteiro d itens).getD (i % d) [] := by
  have hmod : i % d < d := Nat.mod_lt i hd
  simp only [montarRoteiro]
  have hr : ((List.range d).map (fun j =>
      ((itens.take (d * 3)).enum.filter (fun e => e.1 % d = j)).map Prod.snd)).get? (i % d)
      = some (((itens.take (d * 3)).enum.filter (fun e => e.1 % d = i % d)).map Prod.snd) := by
    rw [List.get?_map, List.get?_range hmod]
    rfl
  rw [List.getD_eq_getElem?_getD, ← List.get?_eq_getElem?, hr]
  have henum : (i, p) ∈ (itens.take (d * 3)).enum := mem_enum_of_get? _ i p hget
  exact List.mem_map.mpr ⟨(i, p), List.mem_filter.mpr ⟨henum, by simp⟩, rfl⟩

/-- C1: the roteiro branch answers HTTP 200 with a reply that embeds the
day-by-day itinerary text built from `montarRoteiro` over the requested day
count (which assigns the first N candidate items round-robin: item i lands
on day i mod dias) and, when relevant dicas exist, embeds each dica's name.
`detectarDias`, `montarRoteiro` and `montarRoteiroTexto` are modeled from
the spec because their definitions are not among the included sources. -/
theorem c1_roteiro_branch (texto : String) (cid : Option Cidade)
    (itens dicas : List Parceiro) (convId : String)
    (hint : detectarIntencao texto = "roteiro") :
    (roteiroBranch texto cid itens dicas convId).status = 200 ∧
    containsSub
      (montarRoteiroTexto (montarRoteiro (detectarDias texto) itens)
        (cid.map (fun c => c.nome))).data
      (roteiroBranch texto cid itens dicas convId).reply.data = true ∧
    (∀ (i : Nat) (p : Parceiro),
      (itens.take (detectarDias texto * 3)).get? i = some p →
      p ∈ (montarRoteiro (detectarDias texto) itens).getD (i % detectarDias texto) []) ∧
    (∀ d ∈ dicas,
      containsSub d.nome.data (roteiroBranch texto cid itens dicas convId).reply.data = true) := by
  refine ⟨rfl, ?_, ?_, ?_⟩
  · show containsSub _ ((montarRoteiroTexto (montarRoteiro (detectarDias texto) itens)
        (cid.map (fun c => c.nome)) ++ _ ++ _) : String).data = true
    simp only [String.data_append]
    exact containsSub_append_left _ _ _ (containsSub_append_left _ _ _ (containsSub_self _))
  · intro i p hget
    exact montarRoteiro_mem (detectarDias texto) itens i p (detectarDias_pos texto) hget
  · intro d hd
    have hne : dicas.isEmpty = false := by
      cases dicas with
      | nil => exact absurd hd (List.not_mem_nil d)
      | cons a t => rfl
    have hbullet : containsSub d.nome.data
        ("• " ++ d.nome ++ ": " ++ jsShowOpt d.descricao).data = true := by
      simp only [String.data_append]
      rw [containsSub_iff]
      exact ⟨"• ".data, (": ").data ++ (jsShowOpt d.descricao).data, by simp⟩
    have hjoin : containsSub d.nome.data
        (joinSep "\n" (dicas.map (fun d => "• " ++ d.nome ++ ": " ++ jsShowOpt d.descricao))).data
        = true :=
      containsSub_trans hbullet
        (joinSep_contains "\n" _ _ (List.mem_map.mpr ⟨d, hd, rfl⟩))
    show containsSub d.nome.data
      ((montarRoteiroTexto (montarRoteiro (detectarDias texto) itens) (cid.map (fun c => c.nome))
        ++ (if dicas.isEmpty then ""
            else "\n" ++ joinSep "\n" (dicas.map (fun d => "• " ++ d.nome ++ ": " ++ jsShowOpt d.descricao)))
        ++ "\n\nSe quiser, eu trago **endereço/horário/contato** dos lugares e posso **ajustar por orçamento**.") : String).data
      = true
    rw [hne]
    simp only [Bool.false_eq_true, if_false, String.data_append]
    exact containsSub_append_left _ _ _
      (containsSub_append_right _ _ _ (containsSub_append_right _ _ _ hjoin))

/-- C1 witness: a concrete roteiro request over two items and one dica:
the branch returns 200, the reply embeds the itinerary text and the dica's
name, and item 1 of the take-list lands on day 1 mod 2. -/
theorem c1_roteiro_branch_witness :
    detectarIntencao "roteiro de 2 dias" = "roteiro" ∧
    (roteiroBranch "roteiro de 2 dias" none
      [⟨"a", none, "Alfa", none, none, none, none, none, none, none, none, none, "c1"⟩,
       ⟨"b", none, "Beta", none, none, none, none, none, none, none, none, none, "c1"⟩]
      [⟨"g", some "DICA", "Gama", none, some "evite a ponte", none, none, none, none, none, none, none, "c1"⟩]
      "conv").status = 200 ∧
    (∀ d ∈ ([⟨"g", some "DICA", "Gama", none, some "evite a ponte", none, none, none, none, none, none, none, "c1"⟩] : List Parceiro),
      containsSub d.nome.data
        (roteiroBranch "roteiro de 2 dias" none
          [⟨"a", none, "Alfa", none, none, none, none, none, none, none, none, none, "c1"⟩,
           ⟨"b", none, "Beta", none, none, none, none, none, none, none, none, none, "c1"⟩]
          [⟨"g", some "DICA", "Gama", none, some "evite a ponte", none, none, none, none, none, none, none, "c1"⟩]
          "conv").reply.data = true) :=
  ⟨by decide,
   (c1_roteiro_branch "roteiro de 2 dias" none
      [⟨"a", none, "Alfa", none, none, none, none, none, none, none, none, none, "c1"⟩,
       ⟨"b", none, "Beta", none, none, none, none, none, none, none, none, none, "c1"⟩]
      [⟨"g", some "DICA", "Gama", none, some "evite a ponte", none, none, none, none, none, none, none, "c1"⟩]
      "conv" (by decide)).1,
   (c1_roteiro_branch "roteiro de 2 dias" none
      [⟨"a", none, "Alfa", none, none, none, none, none, none, none, none, none, "c1"⟩,
       ⟨"b", none, "Beta", none, none, none, none, none, none, none, none, none, "c1"⟩]
      [⟨"g", some "DICA", "Gama", none, some "evite a ponte", none, none, none, none, none, none, none, "c1"⟩]
      "conv" (by decide)).2.2.2⟩

end Bepit
